import Mathlib

/-
Verification development for the TVM Vulkan runtime
(src/runtime/vulkan/vulkan.cc).

The definitions below are a shallow embedding of the C++ source: pure
fragments become Lean functions, Vulkan commands recorded into a command
buffer become explicit event lists, and fatal ICHECK failures become
`Option`/`Except` failures.  Vulkan enum values are the numeric constants
of `vulkan_core.h`.
-/

namespace VulkanRT

/-! ## Vulkan constants (numeric values from vulkan_core.h) -/

def VK_MEMORY_PROPERTY_DEVICE_LOCAL_BIT : Nat := 0x1

def VK_MEMORY_PROPERTY_HOST_VISIBLE_BIT : Nat := 0x2

def VK_MEMORY_PROPERTY_HOST_COHERENT_BIT : Nat := 0x4

def VK_MEMORY_PROPERTY_HOST_CACHED_BIT : Nat := 0x8

def VK_BUFFER_USAGE_TRANSFER_SRC_BIT : Nat := 0x1

def VK_BUFFER_USAGE_TRANSFER_DST_BIT : Nat := 0x2

def VK_BUFFER_USAGE_UNIFORM_BUFFER_BIT : Nat := 0x10

def VK_BUFFER_USAGE_STORAGE_BUFFER_BIT : Nat := 0x20

def VK_ACCESS_SHADER_READ_BIT : Nat := 0x20

def VK_ACCESS_SHADER_WRITE_BIT : Nat := 0x40

def VK_ACCESS_TRANSFER_READ_BIT : Nat := 0x800

def VK_ACCESS_TRANSFER_WRITE_BIT : Nat := 0x1000

def VK_PIPELINE_STAGE_COMPUTE_SHADER_BIT : Nat := 0x800

def VK_PIPELINE_STAGE_TRANSFER_BIT : Nat := 0x1000

def VK_PIPELINE_STAGE_HOST_BIT : Nat := 0x4000

def VK_DESCRIPTOR_TYPE_UNIFORM_BUFFER : Nat := 6

def VK_DESCRIPTOR_TYPE_STORAGE_BUFFER : Nat := 7

def VK_WHOLE_SIZE : Nat := 0xFFFFFFFFFFFFFFFF

/-- VK_MAKE_VERSION(major, minor, patch) = (major << 22) | (minor << 12) | patch. -/
def VK_MAKE_VERSION (major minor patch : Nat) : Nat :=
  (major <<< 22) ||| (minor <<< 12) ||| patch

def VK_API_VERSION_1_1 : Nat := VK_MAKE_VERSION 1 1 0

def VK_API_VERSION_1_2 : Nat := VK_MAKE_VERSION 1 2 0

/-! ## Memory-type selection at device initialization
(VulkanDeviceAPI::VulkanDeviceAPI, vulkan.cc lines 925-991).

The constructor probes two `VkMemoryRequirements` values, `req_staging`
(usage TRANSFER_SRC|TRANSFER_DST, lines 938-942) and `req_compute`
(usage TRANSFER_SRC|TRANSFER_DST|STORAGE_BUFFER, lines 943-948), then
runs two ranked selection loops over the physical device's memory types.
Both are embedded below with the driver-reported data as parameters. -/

structure VkMemoryType where
  propertyFlags : Nat
  heapIndex : Nat
deriving DecidableEq, Repr

/-- The physical device's memory properties: the list of memory types and
the list of heap sizes (`VkPhysicalDeviceMemoryProperties`). -/
structure VkPhysicalDeviceMemoryProperties where
  memoryTypes : List VkMemoryType
  memoryHeapSizes : List Nat
deriving DecidableEq, Repr

/-- One iteration of the staging-memory selection loop (lines 956-971):
skip if not host-visible, not in `req_staging.memoryTypeBits`, or heap
below 1024 bytes; otherwise rank by the HOST_CACHED flag value and keep
the strictly best rank seen so far.  The accumulator mirrors
`(win_rank, ctx.staging_mtype_index, ctx.coherent_staging)`. -/
def stagingStep (heaps : List Nat) (stagingBits : Nat) (k : Nat) (ty : VkMemoryType)
    (acc : Int × Nat × Bool) : Int × Nat × Bool :=
  let heapSize := heaps.getD ty.heapIndex 0
  if ty.propertyFlags &&& VK_MEMORY_PROPERTY_HOST_VISIBLE_BIT = 0 then acc
  else if stagingBits &&& (1 <<< k) = 0 then acc
  else if heapSize < 1024 then acc
  else
    let rank : Int := ((ty.propertyFlags &&& VK_MEMORY_PROPERTY_HOST_CACHED_BIT : Nat) : Int)
    if acc.1 < rank then
      (rank, k, decide (ty.propertyFlags &&& VK_MEMORY_PROPERTY_HOST_COHERENT_BIT ≠ 0))
    else acc

def stagingFold (heaps : List Nat) (stagingBits : Nat) :
    Nat → List VkMemoryType → Int × Nat × Bool → Int × Nat × Bool
  | _, [], acc => acc
  | k, ty :: rest, acc =>
    stagingFold heaps stagingBits (k + 1) rest (stagingStep heaps stagingBits k ty acc)

/-- The staging-memory selection (lines 952-972).  `none` models the fatal
`ICHECK_GE(win_rank, 0)`; on success returns
`(staging_mtype_index, coherent_staging)`. -/
def selectStagingMType (prop : VkPhysicalDeviceMemoryProperties) (stagingBits : Nat) :
    Option (Nat × Bool) :=
  let r := stagingFold prop.memoryHeapSizes stagingBits 0 prop.memoryTypes (-1, 0, false)
  if 0 ≤ r.1 then some (r.2.1, r.2.2) else none

/-- One iteration of the compute-memory selection loop (lines 975-990):
skip if not device-local, heap below 1024 bytes, or — exactly as on source
line 981 — if the type is not in `req_staging.memoryTypeBits` (the probed
`req_compute.memoryTypeBits` is never consulted); rank prefers memory that
is not host-visible. -/
def computeStep (heaps : List Nat) (stagingBits : Nat) (k : Nat) (ty : VkMemoryType)
    (acc : Int × Nat) : Int × Nat :=
  let heapSize := heaps.getD ty.heapIndex 0
  if ty.propertyFlags &&& VK_MEMORY_PROPERTY_DEVICE_LOCAL_BIT = 0 then acc
  else if stagingBits &&& (1 <<< k) = 0 then acc
  else if heapSize < 1024 then acc
  else
    let rank : Int := if ty.propertyFlags &&& VK_MEMORY_PROPERTY_HOST_VISIBLE_BIT = 0 then 1 else 0
    if acc.1 < rank then (rank, k) else acc

def computeFold (heaps : List Nat) (stagingBits : Nat) :
    Nat → List VkMemoryType → Int × Nat → Int × Nat
  | _, [], acc => acc
  | k, ty :: rest, acc =>
    computeFold heaps stagingBits (k + 1) rest (computeStep heaps stagingBits k ty acc)

/-- The compute-memory selection (lines 974-991).  It receives both probed
bit masks as the constructor does, but — faithfully to the source — the
loop reads only `stagingBits`.  `none` models the fatal
`ICHECK_GE(win_rank, 0)`; on success returns `compute_mtype_index`. -/
def selectComputeMType (prop : VkPhysicalDeviceMemoryProperties)
    (stagingBits computeBits : Nat) : Option Nat :=
  let r := computeFold prop.memoryHeapSizes stagingBits 0 prop.memoryTypes (-1, 0)
  if 0 ≤ r.1 then some r.2 else none

/-- Claim C1 failing input: two device-local memory types on a 2048-byte
heap; type 0 is not host-visible, type 1 is.  The staging probe reports
both types usable, the compute probe reports only type 1 usable. -/
def c1Prop : VkPhysicalDeviceMemoryProperties :=
  { memoryTypes :=
      [⟨VK_MEMORY_PROPERTY_DEVICE_LOCAL_BIT, 0⟩,
       ⟨VK_MEMORY_PROPERTY_DEVICE_LOCAL_BIT ||| VK_MEMORY_PROPERTY_HOST_VISIBLE_BIT, 0⟩],
    memoryHeapSizes := [2048] }

def c1StagingBits : Nat := 3

def c1ComputeBits : Nat := 2

/-! ## Capability discovery (VulkanDeviceAPI::GetDeviceDescription,
vulkan.cc lines 470-643) and the push-descriptor context setup
(lines 993-996). -/

/-- `has_extension` (lines 473-478): the query is present among the device
extensions or the instance extensions. -/
def has_extension (device_extensions instance_extensions : List String)
    (query : String) : Bool :=
  device_extensions.contains query || instance_extensions.contains query

/-- The C idiom `disable && *disable` (lines 587-588): the environment
variable is set and its first character is not the terminator, i.e. the
value is non-empty. -/
def envSetAndNonEmpty : Option String → Bool
  | none => false
  | some s => s != ""

def extPushDescriptor : String := "VK_KHR_push_descriptor"

def extDescriptorUpdateTemplate : String := "VK_KHR_descriptor_update_template"

/-- `supports_push_descriptor` (lines 584-591): both KHR extensions
present, then forced off when `TVM_VULKAN_DISABLE_PUSH_DESCRIPTOR` is set
and non-empty.  `disableEnv` is the result of the `getenv` call. -/
def supports_push_descriptor (device_extensions instance_extensions : List String)
    (disableEnv : Option String) : Bool :=
  (has_extension device_extensions instance_extensions extPushDescriptor &&
   has_extension device_extensions instance_extensions extDescriptorUpdateTemplate) &&
  !(envSetAndNonEmpty disableEnv)

/-- `max_spirv_version` (lines 572-580). -/
def max_spirv_version (vulkan_api_version : Nat) (has_spirv_1_4 : Bool) : Nat :=
  if VK_API_VERSION_1_2 ≤ vulkan_api_version then 0x10500
  else if has_spirv_1_4 then 0x10400
  else if VK_API_VERSION_1_1 ≤ vulkan_api_version then 0x10300
  else 0x10000

/-- Constructor lines 993-996: `ctx.descriptor_template_khr_functions` is
instantiated exactly when the target reports `supports_push_descriptor`. -/
def descriptor_template_khr_functions_present
    (device_extensions instance_extensions : List String)
    (disableEnv : Option String) : Bool :=
  supports_push_descriptor device_extensions instance_extensions disableEnv

/-- Modelled from the spec: `VulkanContext::UseImmediate` is defined in
`vulkan_common.h`, which is not among the sources; spec section 3 states
the invariant "UseImmediate() iff descriptor_template_khr_functions
present". -/
def UseImmediate (descriptor_template_fns_present : Bool) : Bool :=
  descriptor_template_fns_present

/-! ## Module data model and binary serialization
(VulkanModuleNode, vulkan.cc lines 1078-1344 and 1563-1573). -/

/-- `VulkanShader` (vulkan_shader.h): the SPIR-V words and the flag word.
The header is not among the sources; the layout is fixed by the
serialization calls `stream->Write(smap_)` and spec section 6:
name maps to flags (u32) and data (vector of u32). -/
structure VulkanShader where
  data : List Nat
  flag : Nat
deriving DecidableEq, Repr

/-- `DLDataType`: type code, bit width, lanes. -/
structure DLDataType where
  code : Nat
  bits : Nat
  lanes : Nat
deriving DecidableEq, Repr

/-- TVM type code for opaque handle arguments. -/
def kTVMOpaqueHandle : Nat := 3

/-- `FunctionInfo` (host runtime codec): function name, argument types and
thread-axis tags. -/
structure FunctionInfo where
  name : String
  arg_types : List DLDataType
  thread_axis_tags : List String
deriving DecidableEq, Repr

/-- `VulkanModuleNode` state: shader map, function-info map, format and
source text (lines 1324-1332; `fmt_` is initialized to "vulkan"). -/
structure VulkanModuleNode where
  smap : List (String × VulkanShader)
  fmap : List (String × FunctionInfo)
  fmt : String
  source : String
deriving DecidableEq, Repr

/-- `VulkanModuleCreate` (lines 1340-1344). -/
def VulkanModuleCreate (smap : List (String × VulkanShader))
    (fmap : List (String × FunctionInfo)) (source : String) : VulkanModuleNode :=
  { smap := smap, fmap := fmap, fmt := "vulkan", source := source }

/-- A record written to or read from a `dmlc::Stream`.  Each
`stream->Write` appends one record; each `stream->Read` consumes one and
must find the matching codec. -/
inductive StreamRecord where
  | str : String → StreamRecord
  | fmapRec : List (String × FunctionInfo) → StreamRecord
  | smapRec : List (String × VulkanShader) → StreamRecord
deriving DecidableEq, Repr

/-- `VulkanModuleNode::SaveToBinary` (lines 1314-1318): write `fmt_`, then
`fmap_`, then `smap_`. -/
def SaveToBinary (m : VulkanModuleNode) (stream : List StreamRecord) : List StreamRecord :=
  stream ++ [StreamRecord.str m.fmt, StreamRecord.fmapRec m.fmap, StreamRecord.smapRec m.smap]

/-- `VulkanModuleLoadBinary` (lines 1563-1573): read `fmt`, `fmap`, `smap`
in that order and build the module with an empty source string.  A stream
whose records do not match the expected codecs is a read failure
(`none`). -/
def VulkanModuleLoadBinary (stream : List StreamRecord) :
    Option (VulkanModuleNode × List StreamRecord) :=
  match stream with
  | StreamRecord.str _ :: StreamRecord.fmapRec fmap :: StreamRecord.smapRec smap :: rest =>
    some (VulkanModuleCreate smap fmap (""), rest)
  | _ => none

/-- Claim C2 counterexample input: a module with a non-empty source. -/
def c2Module : VulkanModuleNode :=
  VulkanModuleCreate [("add", ⟨[119734787, 65536], 0⟩)]
    [("add", ⟨"add", [⟨kTVMOpaqueHandle, 64, 1⟩], ["blockIdx.x"]⟩)] "spirv text"

/-! ## Pipeline construction (VulkanModuleNode::GetPipeline,
vulkan.cc lines 1120-1298). -/

/-- `sizeof(ArgUnion64)`: one 8-byte packed scalar slot. -/
def sizeofArgUnion64 : Nat := 8

/-- `sizeof(VkDescriptorBufferInfo)` on a 64-bit host: buffer handle plus
two `VkDeviceSize` fields. -/
def sizeofVkDescriptorBufferInfo : Nat := 24

/-- Modelled from the spec: `ShaderMetaDataFlagMask::kUseUBO` is declared
in `vulkan_shader.h`, which is not among the sources; the spec
(section 4.5) names a single flag bit, taken as bit 0. -/
def kUseUBO : Nat := 0

/-- One `VkDescriptorUpdateTemplateEntryKHR` as filled by `push_arg_info`
(lines 1174-1183). -/
structure DescriptorUpdateEntry where
  dstBinding : Nat
  offset : Nat
  stride : Nat
  descriptorType : Nat
deriving DecidableEq, Repr

/-- The three vectors accumulated by `push_arg_info` (lines 1144-1146):
descriptor pool sizes as (type, count) pairs, set-layout bindings as
(binding, type) pairs, and the update-template entries. -/
structure PipelineBuildState where
  poolSizes : List (Nat × Nat)
  argBinding : List (Nat × Nat)
  argTemplate : List DescriptorUpdateEntry
deriving DecidableEq, Repr

/-- Pool-size bookkeeping in `push_arg_info` (lines 1151-1163): bump the
count of an existing entry for the descriptor type, else append a fresh
entry with count one. -/
def addPoolSize : List (Nat × Nat) → Nat → List (Nat × Nat)
  | [], descType => [(descType, 1)]
  | (t, c) :: rest, descType =>
    if t = descType then (t, c + 1) :: rest else (t, c) :: addPoolSize rest descType

/-- `push_arg_info` (lines 1149-1184). -/
def push_arg_info (st : PipelineBuildState) (binding descType : Nat) : PipelineBuildState :=
  { poolSizes := addPoolSize st.poolSizes descType,
    argBinding := st.argBinding ++ [(binding, descType)],
    argTemplate := st.argTemplate ++
      [⟨binding, binding * sizeofVkDescriptorBufferInfo, sizeofVkDescriptorBufferInfo,
        descType⟩] }

/-- The argument walk (lines 1186-1197): opaque-handle arguments get one
storage-buffer binding at the next binding index; every other argument
counts as POD.  Returns the build state, `num_buffer` and `num_pod`. -/
def walkArgs : List DLDataType → PipelineBuildState → Nat → Nat →
    PipelineBuildState × Nat × Nat
  | [], st, num_buffer, num_pod => (st, num_buffer, num_pod)
  | a :: rest, st, num_buffer, num_pod =>
    if a.code = kTVMOpaqueHandle then
      walkArgs rest (push_arg_info st num_buffer VK_DESCRIPTOR_TYPE_STORAGE_BUFFER)
        (num_buffer + 1) num_pod
    else
      walkArgs rest st num_buffer (num_pod + 1)

/-- The observable result of `GetPipeline`: the `VulkanPipeline` fields
that are data rather than opaque driver handles.  Optional handles
(`descriptor_pool`, `descriptor_update_template`) carry the data they were
created from; `none` models `VK_NULL_HANDLE`. -/
structure VulkanPipelineM where
  use_ubo : Bool
  shaderCodeSize : Nat
  layout_bindings : List (Nat × Nat)
  push_descriptor_layout_flag : Bool
  descriptor_pool : Option (List (Nat × Nat))
  descriptor_set : Bool
  push_constant_ranges : List (Nat × Nat)
  descriptor_update_template : Option (List DescriptorUpdateEntry)
deriving DecidableEq, Repr

/-- `VulkanModuleNode::GetPipeline` (lines 1120-1298) for one kernel on
one device, given the context's `UseImmediate()` value, the device's
`maxPushConstantsSize` limit, the kernel's shader entry and arg types,
and `num_pack_args`.  `none` models the fatal
`ICHECK_LE(crange.size, maxPushConstantsSize)` on line 1255. -/
def GetPipeline (use_immediate : Bool) (maxPushConstantsSize : Nat)
    (shader : VulkanShader) (arg_types : List DLDataType) (num_pack_args : Nat) :
    Option VulkanPipelineM :=
  let use_ubo : Bool := shader.flag &&& (1 <<< kUseUBO) != 0
  let walked := walkArgs arg_types ⟨[], [], []⟩ 0 0
  let num_buffer := walked.2.1
  let num_pod := walked.2.2
  let nbytes_scalars := num_pod * sizeofArgUnion64
  let st :=
    if use_ubo then push_arg_info walked.1 num_buffer VK_DESCRIPTOR_TYPE_UNIFORM_BUFFER
    else walked.1
  let crange_size := sizeofArgUnion64 * num_pack_args
  if decide (0 < nbytes_scalars) && !use_ubo && decide (maxPushConstantsSize < crange_size) then
    none
  else
    some
      { use_ubo := use_ubo,
        shaderCodeSize := shader.data.length * 4,
        layout_bindings := st.argBinding,
        push_descriptor_layout_flag := use_immediate,
        descriptor_pool := if use_immediate then none else some st.poolSizes,
        descriptor_set := !use_immediate,
        push_constant_ranges :=
          if decide (0 < nbytes_scalars) && !use_ubo then [(0, crange_size)] else [],
        descriptor_update_template := if use_immediate then some st.argTemplate else none }

/-! ## Kernel launch (VulkanWrappedFunc::operator(), vulkan.cc
lines 1421-1544) and device-to-device copy (lines 283-308).  Commands
recorded into the stream's command buffer, plus the host-side UBO write,
are modelled as an explicit event list. -/

/-- A `VkDescriptorBufferInfo` (lines 1435-1439): buffer handle, offset 0,
range `VK_WHOLE_SIZE`. -/
structure DescriptorBufferInfo where
  buffer : Nat
  offset : Nat
  range : Nat
deriving DecidableEq, Repr

/-- Commands recorded on the launch and copy paths. -/
inductive Cmd where
  | bindPipeline
  | pushDescriptorSetWithTemplate (infos : List DescriptorBufferInfo)
  | bindDescriptorSets
  | pushConstants (offset size : Nat)
  | uboWrite (nbytes : Nat)
  | dispatch (x y z : Nat)
  | memoryBarrier (srcAccess dstAccess srcStage dstStage : Nat)
  | copyBuffer (srcOffset dstOffset size : Nat)
deriving DecidableEq, Repr

/-- The descriptor-buffer-info assembly of `operator()` (lines 1431-1450):
one entry per buffer argument, plus one for the UBO when the pipeline uses
a UBO. -/
def assembleDescriptorBuffers (buffer_args : List Nat) (use_ubo : Bool)
    (ubo_buffer : Nat) : List DescriptorBufferInfo :=
  (buffer_args.map fun b => ⟨b, 0, VK_WHOLE_SIZE⟩) ++
  (if use_ubo then [(⟨ubo_buffer, 0, VK_WHOLE_SIZE⟩ : DescriptorBufferInfo)] else [])

/-- The post-dispatch barrier shared by both launch paths
(lines 1470-1478 and 1526-1534). -/
def postDispatchBarrier : Cmd :=
  Cmd.memoryBarrier (VK_ACCESS_SHADER_WRITE_BIT ||| VK_ACCESS_SHADER_READ_BIT)
    (VK_ACCESS_TRANSFER_READ_BIT ||| VK_ACCESS_TRANSFER_WRITE_BIT |||
     VK_ACCESS_SHADER_READ_BIT ||| VK_ACCESS_SHADER_WRITE_BIT)
    VK_PIPELINE_STAGE_COMPUTE_SHADER_BIT
    (VK_PIPELINE_STAGE_TRANSFER_BIT ||| VK_PIPELINE_STAGE_COMPUTE_SHADER_BIT)

/-- The immediate launch path (lines 1451-1480): bind pipeline, push the
descriptor set with the template, then either write the scalars into the
UBO host mapping or — when `num_pack_args > 0` — push
`num_pack_args * sizeof(ArgUnion64)` bytes of constants, then dispatch and
barrier. -/
def recordImmediate (use_ubo : Bool) (descs : List DescriptorBufferInfo)
    (num_pack_args : Nat) (grid : Nat × Nat × Nat) : List Cmd :=
  [Cmd.bindPipeline, Cmd.pushDescriptorSetWithTemplate descs] ++
  (if use_ubo then [Cmd.uboWrite (num_pack_args * sizeofArgUnion64)]
   else if 0 < num_pack_args then
     [Cmd.pushConstants 0 (num_pack_args * sizeofArgUnion64)]
   else []) ++
  [Cmd.dispatch grid.1 grid.2.1 grid.2.2, postDispatchBarrier]

/-- The deferred kernel closure (lines 1509-1535): bind pipeline and
descriptor set, then the same UBO-or-push-constants choice (the pushed
size is `pack_args_storage.size() * sizeof(ArgUnion64)` with
`pack_args_storage` holding `num_pack_args` slots), dispatch, barrier. -/
def recordDeferred (use_ubo : Bool) (num_pack_args : Nat)
    (grid : Nat × Nat × Nat) : List Cmd :=
  [Cmd.bindPipeline, Cmd.bindDescriptorSets] ++
  (if use_ubo then [Cmd.uboWrite (num_pack_args * sizeofArgUnion64)]
   else if 0 < num_pack_args then
     [Cmd.pushConstants 0 (num_pack_args * sizeofArgUnion64)]
   else []) ++
  [Cmd.dispatch grid.1 grid.2.1 grid.2.2, postDispatchBarrier]

/-- Total bytes passed through `vkCmdPushConstants` in a command list. -/
def pushedConstantBytes : List Cmd → Nat
  | [] => 0
  | Cmd.pushConstants _ size :: rest => size + pushedConstantBytes rest
  | _ :: rest => pushedConstantBytes rest

/-- Number of `vkCmdPushConstants` calls in a command list. -/
def countPushConstantCalls : List Cmd → Nat
  | [] => 0
  | Cmd.pushConstants _ _ :: rest => 1 + countPushConstantCalls rest
  | _ :: rest => countPushConstantCalls rest

/-- Outcome of the device-to-device branch of `CopyDataFromTo`: the device
id whose per-thread stream receives the recording, and either the recorded
commands or the fatal `ICHECK_EQ` message. -/
structure CopyOutcome where
  stream_device : Nat
  result : Except String (List Cmd)

/-- The device-to-device branch of `VulkanDeviceAPI::CopyDataFromTo`
(lines 283-308).  Modelled from the spec for the `Launch` part:
`VulkanStream::Launch` lives in `vulkan_stream.h`, which is not among the
sources, and section 4.7 specifies that it invokes the closure immediately
on the current command buffer.  The closure records the buffer copy, then
hits `ICHECK_EQ(dev_from.device_id, dev_to.device_id)` (line 296), then
records the transfer-to-(transfer|compute) barrier (lines 297-307). -/
def copyDeviceToDevice (from_id to_id from_offset to_offset size : Nat) : CopyOutcome :=
  { stream_device := from_id,
    result :=
      let cmds := [Cmd.copyBuffer from_offset to_offset size]
      if from_id = to_id then
        Except.ok (cmds ++
          [Cmd.memoryBarrier VK_ACCESS_TRANSFER_WRITE_BIT
            (VK_ACCESS_TRANSFER_READ_BIT ||| VK_ACCESS_TRANSFER_WRITE_BIT |||
             VK_ACCESS_SHADER_READ_BIT ||| VK_ACCESS_SHADER_WRITE_BIT)
            VK_PIPELINE_STAGE_TRANSFER_BIT
            (VK_PIPELINE_STAGE_TRANSFER_BIT ||| VK_PIPELINE_STAGE_COMPUTE_SHADER_BIT)])
      else Except.error ("Vulkan disallow cross device copy.") }

/-! ## Host-visible buffer caches (GetOrAllocate, vulkan.cc
lines 1348-1397) and data-space allocation (lines 244-265). -/

/-- Host-side actions performed by the cache and the alloc/free paths. -/
inductive HostEvent where
  | streamSynchronize (device_id : Nat)
  | deleteHostVisibleBuffer
  | createBuffer (size : Nat)
  | mapMemory (size : Nat)
  | destroyBuffer
  | freeMemory
deriving DecidableEq, Repr

/-- `GetOrAllocate` (lines 1348-1382) for one device entry of a per-thread
cache.  `existing` is the entry's current buffer size (`none` when the
cache has no entry for the device).  When the entry exists but is smaller
than the request, the old buffer is deleted — preceded by one stream
synchronize exactly when `sync_before_realloc` — and a new buffer of the
requested size is created and mapped.  Returns the events performed and
the resulting buffer size. -/
def GetOrAllocate (device_id size : Nat) (sync_before_realloc : Bool)
    (existing : Option Nat) : List HostEvent × Nat :=
  match existing with
  | none => ([HostEvent.createBuffer size, HostEvent.mapMemory size], size)
  | some oldSize =>
    if oldSize < size then
      ((if sync_before_realloc then [HostEvent.streamSynchronize device_id] else []) ++
        [HostEvent.deleteHostVisibleBuffer, HostEvent.createBuffer size,
         HostEvent.mapMemory size], size)
    else ([], oldSize)

/-- `VulkanThreadEntry::StagingBuffer` (lines 1384-1388): `GetOrAllocate`
with the default `sync_before_realloc = false`. -/
def StagingBuffer (device_id size : Nat) (existing : Option Nat) : List HostEvent × Nat :=
  GetOrAllocate device_id size false existing

/-- `VulkanThreadEntry::AllocateUniformBuffer` (lines 1390-1397):
`GetOrAllocate` with `sync_before_realloc = true`. -/
def AllocateUniformBuffer (device_id size : Nat) (existing : Option Nat) :
    List HostEvent × Nat :=
  GetOrAllocate device_id size true existing

/-- The per-device state consulted by `CreateBuffer` (lines 169-228):
the chosen compute memory type and the optional
KHR_get_memory_requirements2 function table, with the driver's
dedicated-allocation answers as oracles indexed by buffer size. -/
structure VulkanContextM where
  compute_mtype_index : Nat
  has_get_buffer_memory_requirements_2 : Bool
  dedicatedRequired : Nat → Bool
  dedicatedAllocationSize : Nat → Nat

/-- The allocation produced by `CreateBuffer` (lines 169-228): buffer size
and usage from the create info, the memory type index, the allocation size
(the requirements-reported size on the dedicated path, else the buffer
size), and the bind offset (always 0, line 223). -/
structure VulkanBufferM where
  bufferSize : Nat
  usage : Nat
  memoryTypeIndex : Nat
  allocationSize : Nat
  dedicated : Bool
  boundOffset : Nat
deriving DecidableEq, Repr

/-- `CreateBuffer` (lines 169-228). -/
def CreateBuffer (vctx : VulkanContextM) (nbytes usage mem_type_index : Nat) :
    VulkanBufferM :=
  let dedicated :=
    vctx.has_get_buffer_memory_requirements_2 && vctx.dedicatedRequired nbytes
  { bufferSize := nbytes,
    usage := usage,
    memoryTypeIndex := mem_type_index,
    allocationSize := if dedicated then vctx.dedicatedAllocationSize nbytes else nbytes,
    dedicated := dedicated,
    boundOffset := 0 }

/-- `VulkanDeviceAPI::AllocDataSpace` (lines 244-253): zero-byte requests
are promoted to one byte, then `CreateBuffer` runs with
TRANSFER_SRC|TRANSFER_DST|STORAGE_BUFFER usage on the context's
`compute_mtype_index`.  `alignment` and `type_hint` are received but never
read, as in the source. -/
def AllocDataSpace (vctx : VulkanContextM) (nbytes : Nat) (alignment : Nat)
    (type_hint : DLDataType) : VulkanBufferM :=
  let nbytes := if nbytes = 0 then 1 else nbytes
  CreateBuffer vctx nbytes
    (VK_BUFFER_USAGE_TRANSFER_SRC_BIT ||| VK_BUFFER_USAGE_TRANSFER_DST_BIT |||
     VK_BUFFER_USAGE_STORAGE_BUFFER_BIT)
    vctx.compute_mtype_index

/-- `VulkanDeviceAPI::FreeDataSpace` (lines 255-265): synchronize the
calling thread's stream on the device, then destroy the buffer and free
the memory. -/
def FreeDataSpace (device_id : Nat) (buf : VulkanBufferM) : List HostEvent :=
  [HostEvent.streamSynchronize device_id, HostEvent.destroyBuffer, HostEvent.freeMemory]

/-- Number of stream synchronizations in a host-event list. -/
def countSynchronize : List HostEvent → Nat
  | [] => 0
  | HostEvent.streamSynchronize _ :: rest => 1 + countSynchronize rest
  | _ :: rest => countSynchronize rest

/-- Concrete pipeline-construction input for the claim C4 witness: one
opaque-handle argument, one POD argument, no UBO flag. -/
def c4Shader : VulkanShader := ⟨[119734787], 0⟩

def c4ArgTypes : List DLDataType := [⟨kTVMOpaqueHandle, 64, 1⟩, ⟨2, 32, 1⟩]

/-- The pipeline `GetPipeline` builds from `c4Shader`/`c4ArgTypes` in
immediate mode with one packed argument. -/
def c4Pipeline : VulkanPipelineM :=
  { use_ubo := false,
    shaderCodeSize := 4,
    layout_bindings := [(0, 7)],
    push_descriptor_layout_flag := true,
    descriptor_pool := none,
    descriptor_set := false,
    push_constant_ranges := [(0, 8)],
    descriptor_update_template := some [⟨0, 0, 24, 7⟩] }

/-! ## Theorems -/

/-- Claim C1: the selected `compute_mtype_index` should refer to a
device-local memory type satisfying the compute (storage) buffer's
memoryTypeBits.  The source instead filters by the staging buffer's
memoryTypeBits (line 981); on the device `c1Prop` the selection returns
type 0, which is outside the compute probe's memoryTypeBits, although
type 1 is device-local and inside them, and although the staging selection
itself succeeds (picking host-visible type 1). -/
theorem C1_compute_mtype_uses_staging_bits :
    selectComputeMType c1Prop c1StagingBits c1ComputeBits = some 0 ∧
    c1ComputeBits &&& (1 <<< 0) = 0 ∧
    ((c1Prop.memoryTypes.getD 1 ⟨0, 0⟩).propertyFlags &&&
      VK_MEMORY_PROPERTY_DEVICE_LOCAL_BIT ≠ 0 ∧ c1ComputeBits &&& (1 <<< 1) ≠ 0) ∧
    selectStagingMType c1Prop c1StagingBits = some (1, false) := by
  decide

/-- Claim C2 counterexample: saving `c2Module` (whose source is non-empty)
and loading from the same stream yields a module whose source is the empty
string, not the original's. -/
theorem C2_counterexample_source_lost :
    VulkanModuleLoadBinary (SaveToBinary c2Module []) =
      some (VulkanModuleCreate c2Module.smap c2Module.fmap (""), []) ∧
    (VulkanModuleCreate c2Module.smap c2Module.fmap ("")).source ≠ c2Module.source :=
  ⟨rfl, by decide⟩

/-- Claim C2 (amended): serializing a module with `SaveToBinary` and
loading from the same stream yields a module with equal `smap` and `fmap`;
the loaded source string is always empty, since `SaveToBinary` never
writes the source. -/
theorem C2_save_load_roundtrip (m : VulkanModuleNode) (rest : List StreamRecord) :
    VulkanModuleLoadBinary (SaveToBinary m [] ++ rest) =
      some (VulkanModuleCreate m.smap m.fmap (""), rest) ∧
    (VulkanModuleCreate m.smap m.fmap ("")).smap = m.smap ∧
    (VulkanModuleCreate m.smap m.fmap ("")).fmap = m.fmap ∧
    (VulkanModuleCreate m.smap m.fmap ("")).source = "" :=
  ⟨rfl, rfl, rfl, rfl⟩

/-- Claim C3: `supports_push_descriptor` is true exactly when both
`VK_KHR_push_descriptor` and `VK_KHR_descriptor_update_template` are
present and the disabling environment variable is not set-and-non-empty;
and with the variable set to "1" the context is built without the
descriptor-template function table, so `UseImmediate()` is false whatever
extensions are present. -/
theorem C3_push_descriptor_gating (device_extensions instance_extensions : List String)
    (disableEnv : Option String) :
    (supports_push_descriptor device_extensions instance_extensions disableEnv = true ↔
      (has_extension device_extensions instance_extensions extPushDescriptor = true ∧
       has_extension device_extensions instance_extensions extDescriptorUpdateTemplate = true ∧
       envSetAndNonEmpty disableEnv = false)) ∧
    UseImmediate (descriptor_template_khr_functions_present device_extensions
      instance_extensions (some ("1"))) = false := by
  constructor
  · simp [supports_push_descriptor, Bool.and_eq_true, Bool.not_eq_true', and_assoc]
  · have h1 : envSetAndNonEmpty (some ("1")) = true := by decide
    simp [UseImmediate, descriptor_template_khr_functions_present,
      supports_push_descriptor, h1]

/-- Claim C4: for every pipeline built by `GetPipeline`, the descriptor
update template is non-null iff the context's `UseImmediate()` was true at
build time, and the descriptor pool with its one allocated descriptor set
is non-null iff `UseImmediate()` was false. -/
theorem C4_template_iff_immediate (use_immediate : Bool) (maxPush : Nat)
    (shader : VulkanShader) (arg_types : List DLDataType) (num_pack_args : Nat)
    (pe : VulkanPipelineM)
    (h : GetPipeline use_immediate maxPush shader arg_types num_pack_args = some pe) :
    ((pe.descriptor_update_template ≠ none) ↔ use_immediate = true) ∧
    ((pe.descriptor_pool ≠ none ∧ pe.descriptor_set = true) ↔ use_immediate = false) := by
  simp only [GetPipeline] at h
  split at h
  · exact absurd h (by simp)
  · rw [Option.some.injEq] at h
    subst h
    cases use_immediate <;> simp

/-- Claim C4 witness: `GetPipeline` in immediate mode on a concrete kernel
signature. -/
theorem C4_template_iff_immediate_witness :
    ((c4Pipeline.descriptor_update_template ≠ none) ↔ true = true) ∧
    ((c4Pipeline.descriptor_pool ≠ none ∧ c4Pipeline.descriptor_set = true) ↔
      true = false) :=
  C4_template_iff_immediate true 128 c4Shader c4ArgTypes 1 c4Pipeline (by decide)

/-- Claim C5: every kernel call assembles `num_buffer + 1` descriptor
buffer infos when the pipeline uses a UBO and `num_buffer` otherwise, and
pushes `num_pack * 8` bytes of constants when not in UBO mode — with no
push-constants call at all in UBO mode or when `num_pack` is zero — on
both the immediate and the deferred launch path. -/
theorem C5_descriptor_count_and_push_bytes (buffer_args : List Nat) (use_ubo : Bool)
    (ubo_buffer num_pack_args : Nat) (grid : Nat × Nat × Nat) :
    (assembleDescriptorBuffers buffer_args use_ubo ubo_buffer).length =
      buffer_args.length + (if use_ubo then 1 else 0) ∧
    pushedConstantBytes (recordImmediate use_ubo
        (assembleDescriptorBuffers buffer_args use_ubo ubo_buffer) num_pack_args grid) =
      (if use_ubo then 0 else num_pack_args * sizeofArgUnion64) ∧
    pushedConstantBytes (recordDeferred use_ubo num_pack_args grid) =
      (if use_ubo then 0 else num_pack_args * sizeofArgUnion64) ∧
    countPushConstantCalls (recordImmediate use_ubo
        (assembleDescriptorBuffers buffer_args use_ubo ubo_buffer) num_pack_args grid) =
      (if use_ubo ∨ num_pack_args = 0 then 0 else 1) ∧
    countPushConstantCalls (recordDeferred use_ubo num_pack_args grid) =
      (if use_ubo ∨ num_pack_args = 0 then 0 else 1) := by
  refine ⟨?_, ?_, ?_, ?_, ?_⟩ <;>
    cases use_ubo <;>
    rcases num_pack_args with _ | n <;>
    simp [assembleDescriptorBuffers, recordImmediate, recordDeferred,
      pushedConstantBytes, countPushConstantCalls, postDispatchBarrier]

/-- Claim C6: `max_spirv_version` follows the 1.5 / 1.4 / 1.3 / 1.0 table
of API version and `VK_KHR_spirv_1_4` presence, and is monotone
non-decreasing in both inputs. -/
theorem C6_max_spirv_version_monotone (v1 v2 : Nat) (b1 b2 : Bool)
    (hv : v1 ≤ v2) (hb : b1 = true → b2 = true) :
    (max_spirv_version v1 b1 =
      if VK_API_VERSION_1_2 ≤ v1 then 0x10500
      else if b1 then 0x10400
      else if VK_API_VERSION_1_1 ≤ v1 then 0x10300
      else 0x10000) ∧
    max_spirv_version v1 b1 ≤ max_spirv_version v2 b2 := by
  have h12 : VK_API_VERSION_1_1 ≤ VK_API_VERSION_1_2 := by decide
  refine ⟨rfl, ?_⟩
  cases b1 <;> cases b2 <;>
    simp only [max_spirv_version] <;>
    split_ifs <;>
    first
      | rfl
      | omega
      | exact absurd (hb rfl) (by simp)

/-- Claim C6 witness: monotonicity applied between API version 0 without
the extension and API version 1.2 with it. -/
theorem C6_max_spirv_version_monotone_witness :
    (max_spirv_version 0 false =
      if VK_API_VERSION_1_2 ≤ 0 then 0x10500
      else if false then 0x10400
      else if VK_API_VERSION_1_1 ≤ 0 then 0x10300
      else 0x10000) ∧
    max_spirv_version 0 false ≤ max_spirv_version VK_API_VERSION_1_2 true :=
  C6_max_spirv_version_monotone 0 VK_API_VERSION_1_2 false true (by decide) (by decide)

/-- Claim C7: a device-to-device copy with differing device ids fails with
the fatal `ICHECK_EQ`; with equal device ids it records the buffer copy
followed by the transfer-to-(transfer|compute) memory barrier on the
source device's stream. -/
theorem C7_cross_device_copy_rejected (from_id to_id from_offset to_offset size : Nat) :
    (from_id ≠ to_id →
      (copyDeviceToDevice from_id to_id from_offset to_offset size).result =
        Except.error ("Vulkan disallow cross device copy.")) ∧
    (from_id = to_id →
      (copyDeviceToDevice from_id to_id from_offset to_offset size).stream_device =
        from_id ∧
      (copyDeviceToDevice from_id to_id from_offset to_offset size).result =
        Except.ok [Cmd.copyBuffer from_offset to_offset size,
          Cmd.memoryBarrier VK_ACCESS_TRANSFER_WRITE_BIT
            (VK_ACCESS_TRANSFER_READ_BIT ||| VK_ACCESS_TRANSFER_WRITE_BIT |||
             VK_ACCESS_SHADER_READ_BIT ||| VK_ACCESS_SHADER_WRITE_BIT)
            VK_PIPELINE_STAGE_TRANSFER_BIT
            (VK_PIPELINE_STAGE_TRANSFER_BIT ||| VK_PIPELINE_STAGE_COMPUTE_SHADER_BIT)]) := by
  constructor
  · intro h
    simp [copyDeviceToDevice, h]
  · intro h
    subst h
    simp [copyDeviceToDevice]

/-- Claim C7 witness: the copy between device 0 and device 1 fails, the
copy within device 0 records copy then barrier. -/
theorem C7_cross_device_copy_rejected_witness :
    (copyDeviceToDevice 0 1 0 0 16).result =
      Except.error ("Vulkan disallow cross device copy.") ∧
    ((copyDeviceToDevice 0 0 0 0 16).stream_device = 0 ∧
     (copyDeviceToDevice 0 0 0 0 16).result =
       Except.ok [Cmd.copyBuffer 0 0 16,
         Cmd.memoryBarrier VK_ACCESS_TRANSFER_WRITE_BIT
           (VK_ACCESS_TRANSFER_READ_BIT ||| VK_ACCESS_TRANSFER_WRITE_BIT |||
            VK_ACCESS_SHADER_READ_BIT ||| VK_ACCESS_SHADER_WRITE_BIT)
           VK_PIPELINE_STAGE_TRANSFER_BIT
           (VK_PIPELINE_STAGE_TRANSFER_BIT ||| VK_PIPELINE_STAGE_COMPUTE_SHADER_BIT)]) :=
  ⟨(C7_cross_device_copy_rejected 0 1 0 0 16).1 (by decide),
   (C7_cross_device_copy_rejected 0 0 0 0 16).2 rfl⟩

/-- Claim C8: growing an existing, too-small per-thread UBO cache entry
performs exactly one stream synchronize, placed before the old buffer is
freed and reallocated; growing or creating the staging cache entry
performs none. -/
theorem C8_ubo_grow_syncs_once (device_id oldSize newSize : Nat)
    (h : oldSize < newSize) :
    (AllocateUniformBuffer device_id newSize (some oldSize)).1 =
      [HostEvent.streamSynchronize device_id, HostEvent.deleteHostVisibleBuffer,
       HostEvent.createBuffer newSize, HostEvent.mapMemory newSize] ∧
    countSynchronize (AllocateUniformBuffer device_id newSize (some oldSize)).1 = 1 ∧
    countSynchronize (StagingBuffer device_id newSize (some oldSize)).1 = 0 ∧
    countSynchronize (StagingBuffer device_id newSize none).1 = 0 := by
  simp [AllocateUniformBuffer, StagingBuffer, GetOrAllocate, h, countSynchronize]

/-- Claim C8 witness: growing a one-byte entry to two bytes on device 0. -/
theorem C8_ubo_grow_syncs_once_witness :
    (AllocateUniformBuffer 0 2 (some 1)).1 =
      [HostEvent.streamSynchronize 0, HostEvent.deleteHostVisibleBuffer,
       HostEvent.createBuffer 2, HostEvent.mapMemory 2] ∧
    countSynchronize (AllocateUniformBuffer 0 2 (some 1)).1 = 1 ∧
    countSynchronize (StagingBuffer 0 2 (some 1)).1 = 0 ∧
    countSynchronize (StagingBuffer 0 2 none).1 = 0 :=
  C8_ubo_grow_syncs_once 0 1 2 (by decide)

/-- Claim C9: a zero-byte allocation is silently promoted to one byte — it
produces exactly the allocation a one-byte request produces, with a
non-empty buffer — and the result can be passed to `FreeDataSpace`, which
synchronizes the stream and then destroys buffer and memory. -/
theorem C9_zero_byte_alloc (vctx : VulkanContextM) (alignment device_id : Nat)
    (type_hint : DLDataType) :
    AllocDataSpace vctx 0 alignment type_hint = AllocDataSpace vctx 1 alignment type_hint ∧
    (AllocDataSpace vctx 0 alignment type_hint).bufferSize = 1 ∧
    FreeDataSpace device_id (AllocDataSpace vctx 0 alignment type_hint) =
      [HostEvent.streamSynchronize device_id, HostEvent.destroyBuffer,
       HostEvent.freeMemory] :=
  ⟨rfl, rfl, rfl⟩

/-- Claim C10: the allocation `AllocDataSpace` performs does not depend on
the `alignment` or `type_hint` parameters. -/
theorem C10_alloc_ignores_alignment_and_type_hint (vctx : VulkanContextM)
    (nbytes a1 a2 : Nat) (t1 t2 : DLDataType) :
    AllocDataSpace vctx nbytes a1 t1 = AllocDataSpace vctx nbytes a2 t2 :=
  rfl

end VulkanRT
